import Mathlib

/-!
# Verification of the textbook-backend magic-link subsystem

A shallow embedding of the booking / magic-link backend: the Prisma data
model becomes Lean structures, each Express route handler becomes a pure
function from an explicit store (plus its inputs and an injected clock) to
a result paired with the updated store, and the pure policy helpers of
`src/utils/magicLink.ts` become Lean functions on integer millisecond
timestamps.  Timestamps are `Int` milliseconds; a JavaScript `Date` compares
by its millisecond value, and `null` dates are `Option.none`.
-/

namespace TextbookBackend

/-- Booking status enum, from the Prisma schema / `src/types`. -/
inductive BookingStatus
  | PENDING_CONFIRMATION
  | CONFIRMED
  | CANCELLED
  | COMPLETED
deriving DecidableEq, Repr

/-- Payment status enum, from the Prisma schema / `src/types`. -/
inductive PaymentStatus
  | PENDING
  | COMPLETED
  | FAILED
  | REFUNDED
  | CANCELLED
deriving DecidableEq, Repr

/-- Appointment type enum, from the Prisma schema / `src/types`. -/
inductive AppointmentType
  | CONSULTATION
  | TUTORIAL
  | ASSESSMENT
  | GROUP_SESSION
  | WORKSHOP
deriving DecidableEq, Repr

/-- String name of a `BookingStatus`, as serialised into URLs and JSON. -/
def BookingStatus.toName : BookingStatus → String
  | .PENDING_CONFIRMATION => "PENDING_CONFIRMATION"
  | .CONFIRMED => "CONFIRMED"
  | .CANCELLED => "CANCELLED"
  | .COMPLETED => "COMPLETED"

/-- String name of a `PaymentStatus`, as serialised into URLs and JSON. -/
def PaymentStatus.toName : PaymentStatus → String
  | .PENDING => "PENDING"
  | .COMPLETED => "COMPLETED"
  | .FAILED => "FAILED"
  | .REFUNDED => "REFUNDED"
  | .CANCELLED => "CANCELLED"

/-- The `Booking` record of the Prisma schema.  `bookingDetails` (a free-form
JSON object) is modelled as a key/value list; payment amount is kept as an
integer number of minor units, which is enough for every property below. -/
structure Booking where
  id : String
  bookingId : String
  magicLinkId : String
  userName : String
  userPhone : String
  appointmentType : AppointmentType
  appointmentDate : Int
  bookingDetails : List (String × String)
  status : BookingStatus
  paymentStatus : PaymentStatus
  paymentId : Option String
  paymentAmount : Option Int
  paymentCurrency : Option String
  createdAt : Int
  confirmedAt : Option Int
  paymentUpdatedAt : Option Int
  lastAccessedAt : Option Int
  magicLinkExpiresAt : Option Int
  accessCount : Nat
deriving DecidableEq, Repr

/-- A row of the `booking_analytics` table (`BookingAnalytics` model);
`bookingId` here is the owning booking's primary `id` (UUID), as in the
foreign key of the schema. -/
structure AnalyticsEvent where
  bookingId : String
  eventType : String
  userAgent : Option String
  ipAddress : Option String
  timestamp : Int
deriving DecidableEq, Repr

/-- The durable store: the `bookings` table and the `booking_analytics`
table. -/
structure Store where
  bookings : List Booking
  analytics : List AnalyticsEvent
deriving DecidableEq, Repr

/-! ## Magic link policy (`src/utils/magicLink.ts`) -/

/-- `calculateMagicLinkExpiration`: 1 hour (in milliseconds) from `now`. -/
def calculateMagicLinkExpiration (now : Int) : Int :=
  now + 60 * 60 * 1000

/-- `isMagicLinkExpired`: `false` when no expiration date is set, otherwise
whether the current time is strictly past the expiration date. -/
def isMagicLinkExpired (expirationDate : Option Int) (now : Int) : Bool :=
  match expirationDate with
  | none => false
  | some t => now > t

/-- `getTimeUntilExpiration`: milliseconds until expiration clamped at 0;
`none` models the `Infinity` returned when no expiration date is set. -/
def getTimeUntilExpiration (expirationDate : Option Int) (now : Int) : Option Int :=
  match expirationDate with
  | none => none
  | some t => some (max 0 (t - now))

/-- `formatTimeRemaining`: human readable remaining time. -/
def formatTimeRemaining (expirationDate : Option Int) (now : Int) : String :=
  match expirationDate with
  | none => "No expiration"
  | some t =>
    let timeRemaining : Int := max 0 (t - now)
    if timeRemaining = 0 then "Expired"
    else
      let minutes : Int := timeRemaining / (1000 * 60)
      let hours : Int := minutes / 60
      if hours > 0 then
        toString hours ++ "h " ++ toString (minutes % 60) ++ "m"
      else
        toString minutes ++ "m"

/-! ## Store lookups -/

/-- `prisma.booking.findUnique({ where: { magicLinkId } })`. -/
def findByToken (s : Store) (tok : String) : Option Booking :=
  s.bookings.find? (fun b => b.magicLinkId == tok)

/-- `prisma.booking.findUnique({ where: { id } })`. -/
def findById (s : Store) (uuid : String) : Option Booking :=
  s.bookings.find? (fun b => b.id == uuid)

/-- `prisma.booking.update({ where })` applied to the store: every row
matching the predicate is replaced by its image under `f` (the `where`
clauses used by the routes are on unique columns, so at most one row
matches in any well-formed store). -/
def updateWhere (s : Store) (p : Booking → Bool) (f : Booking → Booking) : Store :=
  { s with bookings := s.bookings.map (fun b => if p b then f b else b) }

/-- The access update shared by the redirect and magic-API paths:
`accessCount: { increment: 1 }, lastAccessedAt: new Date()`. -/
def incAccess (now : Int) (x : Booking) : Booking :=
  { x with accessCount := x.accessCount + 1, lastAccessedAt := some now }

/-- The confirm update: `status: CONFIRMED, confirmedAt: new Date()`. -/
def confirmUpd (now : Int) (x : Booking) : Booking :=
  { x with status := BookingStatus.CONFIRMED, confirmedAt := some now }

/-- The payment update: new `paymentStatus`, the supplied payment fields
(Prisma leaves `undefined` ones in place), and `paymentUpdatedAt`. -/
def payUpd (ps : PaymentStatus) (pid : Option String) (amount : Option Int)
    (cur : Option String) (now : Int) (x : Booking) : Booking :=
  { x with
    paymentStatus := ps
    paymentId := match pid with | some v => some v | none => x.paymentId
    paymentAmount := match amount with | some v => some v | none => x.paymentAmount
    paymentCurrency := match cur with | some v => some v | none => x.paymentCurrency
    paymentUpdatedAt := some now }

/-! ## JavaScript truthiness helpers

The route bodies use `x || y` on possibly-absent strings; `undefined` and
the empty string are falsy. -/

/-- Truthiness of an optional string: `undefined` and `""` are falsy. -/
def truthyStr : Option String → Bool
  | none => false
  | some s => s != ""

/-- `x || d` for an optional string `x` and a string default `d`. -/
def jsOrStr (a : Option String) (d : String) : String :=
  if truthyStr a then a.getD d else d

/-- `x || y || null` for optional strings. -/
def jsOrNullable (a b : Option String) : Option String :=
  if truthyStr a then a else if truthyStr b then b else none

/-! ## Analytics ordering

`orderBy: { timestamp: 'desc' }` of the store, modelled as sorting by the
most-recent-first relation. -/

/-- `a` is at least as recent as `b`. -/
def tsGE (a b : AnalyticsEvent) : Prop := b.timestamp ≤ a.timestamp

instance : DecidableRel tsGE := fun a b =>
  inferInstanceAs (Decidable (b.timestamp ≤ a.timestamp))

instance : IsTotal AnalyticsEvent tsGE :=
  ⟨fun a b => (le_total b.timestamp a.timestamp).imp id id⟩

instance : IsTrans AnalyticsEvent tsGE :=
  ⟨fun _ _ _ h1 h2 => le_trans h2 h1⟩

/-- The analytics rows of one booking, most recent first, limited to 50:
`analytics: { orderBy: { timestamp: 'desc' }, take: 50 }`. -/
def listAnalyticsDesc (s : Store) (uuid : String) : List AnalyticsEvent :=
  (List.insertionSort tsGE (s.analytics.filter (fun e => e.bookingId == uuid))).take 50

/-! ## Route handlers (`src/routes/redirect.ts`, `src/routes/booking.ts`) -/

/-- Result of `GET /appt/:magicLinkId`: a redirect to the error page with
`reason=not_found`, or a 302 redirect to the frontend booking URL. -/
inductive RedirectResult
  | errorNotFound (url : String)
  | redirect (url : String)
deriving DecidableEq, Repr

/-- `GET /appt/:magicLinkId`: look the token up, on success increment
`accessCount`, stamp `lastAccessedAt`, record a `magic_link_click`
analytics row, and redirect with `status`, `payment_status` and `source`
query parameters.  No expiration check is performed on this path. -/
def redirectRoute (s : Store) (tok : String) (now : Int)
    (headerUA reqIP : Option String) (frontendBase : String) :
    RedirectResult × Store :=
  match findByToken s tok with
  | none => (.errorNotFound (frontendBase ++ "/booking/error?reason=not_found"), s)
  | some booking =>
    let s1 := updateWhere s (fun b => b.magicLinkId == tok) (incAccess now)
    let ev : AnalyticsEvent :=
      { bookingId := booking.id
        eventType := "magic_link_click"
        userAgent := jsOrNullable headerUA none
        ipAddress := jsOrNullable reqIP none
        timestamp := now }
    let s2 := { s1 with analytics := s1.analytics ++ [ev] }
    let url := frontendBase ++ "/booking/" ++ booking.bookingId ++ "?status=" ++
      booking.status.toName ++ "&payment_status=" ++ booking.paymentStatus.toName ++
      "&source=magic_link"
    (.redirect url, s2)

/-- Result of `GET /appt/:magicLinkId/preview`: 404, or 200 with the
preview payload (the booking, the redirect URL it would use, and the
canonical magic link).  The handler has no other exit. -/
inductive PreviewResult
  | notFound
  | ok (b : Booking) (redirectUrl : String) (magicLink : String)
deriving DecidableEq, Repr

/-- `GET /appt/:magicLinkId/preview`: look the token up and return the
payload; the handler performs no expiration check and no store write. -/
def previewRoute (s : Store) (tok : String) (frontendBase proto host : String) :
    PreviewResult × Store :=
  match findByToken s tok with
  | none => (.notFound, s)
  | some booking =>
    let url := frontendBase ++ "/booking/" ++ booking.bookingId ++ "?status=" ++
      booking.status.toName ++ "&payment_status=" ++ booking.paymentStatus.toName ++
      "&source=magic_link"
    let link := proto ++ "://" ++ host ++ "/appt/" ++ tok
    (.ok booking url link, s)

/-- Result of `POST /appt/:magicLinkId/track`. -/
inductive TrackResult
  | notFound
  | ok
deriving DecidableEq, Repr

/-- `POST /appt/:magicLinkId/track`: look the token up and insert one
analytics row; `eventType` is `event || 'interaction'`, and user agent /
IP address fall back from the body to the request.  The booking row is
not touched. -/
def trackRoute (s : Store) (tok : String)
    (bodyEvent bodyUA bodyIP headerUA reqIP : Option String) (now : Int) :
    TrackResult × Store :=
  match findByToken s tok with
  | none => (.notFound, s)
  | some booking =>
    let e : AnalyticsEvent :=
      { bookingId := booking.id
        eventType := jsOrStr bodyEvent "interaction"
        userAgent := jsOrNullable bodyUA headerUA
        ipAddress := jsOrNullable bodyIP reqIP
        timestamp := now }
    (.ok, { s with analytics := s.analytics ++ [e] })

/-- Result of `GET /appt/:magicLinkId/analytics`. -/
inductive AnalyticsResult
  | notFound
  | ok (bookingId : String) (accessCount : Nat) (lastAccessedAt : Option Int)
      (events : List AnalyticsEvent)
deriving DecidableEq, Repr

/-- `GET /appt/:magicLinkId/analytics`: look the token up and return the
booking's access metrics together with its analytics rows ordered
most-recent-first and limited to 50.  Read-only. -/
def analyticsRoute (s : Store) (tok : String) : AnalyticsResult × Store :=
  match findByToken s tok with
  | none => (.notFound, s)
  | some booking =>
    (.ok booking.bookingId booking.accessCount booking.lastAccessedAt
      (listAnalyticsDesc s booking.id), s)

/-- Result of `GET /api/booking/magic/:magicLinkId`: 404, 410 Gone on an
expired link, or 200 with the booking payload (built from the row as read,
before the access-count update). -/
inductive MagicApiResult
  | notFound
  | gone
  | ok (b : Booking)
deriving DecidableEq, Repr

/-- `GET /api/booking/magic/:magicLinkId`: look the token up; if
`booking.magicLinkExpiresAt && new Date() > booking.magicLinkExpiresAt`
(exactly `isMagicLinkExpired`) answer 410 Gone; otherwise increment
`accessCount`, stamp `lastAccessedAt` and return the booking payload.
This path inserts no analytics row. -/
def magicApiRoute (s : Store) (tok : String) (now : Int) : MagicApiResult × Store :=
  match findByToken s tok with
  | none => (.notFound, s)
  | some booking =>
    if isMagicLinkExpired booking.magicLinkExpiresAt now then (.gone, s)
    else
      let s1 := updateWhere s (fun b => b.id == booking.id) (incAccess now)
      (.ok booking, s1)

/-- Result of `POST /api/booking/confirm/:uuid`: 404 when the update throws
`Record to update not found`, or 200 with the updated booking. -/
inductive ConfirmResult
  | notFound
  | ok (b : Booking)
deriving DecidableEq, Repr

/-- `POST /api/booking/confirm/:uuid`: set `status := CONFIRMED` and
`confirmedAt := now`, whatever the current status; 404 when no row has
this id. -/
def confirmRoute (s : Store) (uuid : String) (now : Int) : ConfirmResult × Store :=
  match findById s uuid with
  | none => (.notFound, s)
  | some b =>
    (.ok (confirmUpd now b), updateWhere s (fun x => x.id == uuid) (confirmUpd now))

/-- Result of `PUT /api/booking/payment/:uuid`. -/
inductive PaymentResult
  | notFound
  | ok (b : Booking)
deriving DecidableEq, Repr

/-- `PUT /api/booking/payment/:uuid`: overwrite the payment fields that the
request supplies (Prisma skips `undefined` values), set the new
`paymentStatus` and stamp `paymentUpdatedAt`; 404 when no row has this
id. -/
def paymentRoute (s : Store) (uuid : String) (ps : PaymentStatus)
    (pid : Option String) (amount : Option Int) (cur : Option String)
    (now : Int) : PaymentResult × Store :=
  match findById s uuid with
  | none => (.notFound, s)
  | some b =>
    (.ok (payUpd ps pid amount cur now b),
      updateWhere s (fun x => x.id == uuid) (payUpd ps pid amount cur now))

/-! ## Operations of the core, for the store-wide invariants -/

/-- One request against the store: every mutating or reading route of the
resolver and lifecycle surface, applied after creation. -/
inductive Op
  | confirmOp (uuid : String) (now : Int)
  | paymentOp (uuid : String) (ps : PaymentStatus) (pid : Option String)
      (amount : Option Int) (cur : Option String) (now : Int)
  | redirectOp (tok : String) (now : Int) (ua ip : Option String) (base : String)
  | previewOp (tok : String) (base proto host : String)
  | magicOp (tok : String) (now : Int)
  | trackOp (tok : String) (ev ua ip hua rip : Option String) (now : Int)
  | analyticsOp (tok : String)

/-- The store after one request. -/
def applyOp (s : Store) : Op → Store
  | .confirmOp uuid now => (confirmRoute s uuid now).2
  | .paymentOp uuid ps pid amount cur now => (paymentRoute s uuid ps pid amount cur now).2
  | .redirectOp tok now ua ip base => (redirectRoute s tok now ua ip base).2
  | .previewOp tok base proto host => (previewRoute s tok base proto host).2
  | .magicOp tok now => (magicApiRoute s tok now).2
  | .trackOp tok ev ua ip hua rip now => (trackRoute s tok ev ua ip hua rip now).2
  | .analyticsOp tok => (analyticsRoute s tok).2

/-- `n` consecutive requests to `GET /appt/:magicLinkId` for the same
token, all resolved at clock value `now`. -/
def iterateRedirect (s : Store) (tok : String) (now : Int)
    (ua ip : Option String) (base : String) : Nat → Store
  | 0 => s
  | n + 1 => (redirectRoute (iterateRedirect s tok now ua ip base n) tok now ua ip base).2

/-! ## Payment update validator (`src/middleware/validation.ts`) -/

/-- A JSON value as a request-body field can hold it. -/
inductive JsVal
  | num (n : Int)
  | str (s : String)
  | jsBool (b : Bool)
  | null
deriving DecidableEq, Repr

/-- JavaScript truthiness of a possibly-absent body field. -/
def truthyVal : Option JsVal → Bool
  | none => false
  | some (.num n) => n != 0
  | some (.str s) => s != ""
  | some (.jsBool b) => b
  | some .null => false

/-- `typeof x === "string"`. -/
def isStrVal : Option JsVal → Bool
  | some (.str _) => true
  | _ => false

/-- `Object.values(PaymentStatus)`. -/
def validPaymentStatuses : List String :=
  ["PENDING", "COMPLETED", "FAILED", "REFUNDED", "CANCELLED"]

/-- The regex `^[A-Z]{3}$`. -/
def isUpper3 (s : String) : Bool :=
  s.length == 3 && s.toList.all (fun c => 'A' ≤ c && c ≤ 'Z')

/-- The body of a `PUT /api/booking/payment/:uuid` request; `none` is an
absent (`undefined`) field. -/
structure PaymentBody where
  paymentStatus : Option JsVal
  paymentId : Option JsVal
  amount : Option JsVal
  currency : Option JsVal
deriving DecidableEq, Repr

/-- The `amount` check of the validator:
`amount !== undefined && (typeof amount !== "number" || amount < 0)`. -/
def amountRejected : Option JsVal → Bool
  | none => false
  | some (.num n) => decide (n < 0)
  | some _ => true

/-- `validatePaymentStatusUpdate`: the list of error messages, in the
order the middleware pushes them; the request passes validation iff the
list is empty. -/
def validatePaymentStatusUpdate (b : PaymentBody) : List String :=
  (if !truthyVal b.paymentStatus || !isStrVal b.paymentStatus then
    ["paymentStatus is required and must be a string"] else []) ++
  (if truthyVal b.paymentStatus &&
      !(match b.paymentStatus with
        | some (JsVal.str s) => validPaymentStatuses.contains s
        | _ => false) then
    ["paymentStatus must be one of: PENDING, COMPLETED, FAILED, REFUNDED, CANCELLED"]
   else []) ++
  (if truthyVal b.paymentId && !isStrVal b.paymentId then
    ["paymentId must be a string"] else []) ++
  (if amountRejected b.amount then
    ["amount must be a positive number"] else []) ++
  (if truthyVal b.currency && !isStrVal b.currency then
    ["currency must be a string"] else []) ++
  (if truthyVal b.currency &&
      !(match b.currency with
        | some (JsVal.str s) => isUpper3 s
        | _ => false) then
    ["currency must be a valid 3-letter ISO 4217 currency code (e.g., USD, EUR)"]
   else []) ++
  (if b.paymentStatus == some (JsVal.str "COMPLETED") && !truthyVal b.paymentId then
    ["paymentId is required when payment status is completed"] else []) ++
  (if b.paymentStatus == some (JsVal.str "COMPLETED") && b.amount == none then
    ["amount is required when payment status is completed"] else []) ++
  (if b.amount != none && !truthyVal b.currency then
    ["currency is required when amount is provided"] else [])

/-! ## Concrete fixtures -/

/-- A freshly created booking, as `POST /api/booking/create` persists it. -/
def baseBooking : Booking :=
  { id := "uuid-1"
    bookingId := "booking_1"
    magicLinkId := "AbCdEfGh1234"
    userName := "Test User"
    userPhone := "+1234567890"
    appointmentType := AppointmentType.CONSULTATION
    appointmentDate := 7200000
    bookingDetails := []
    status := BookingStatus.PENDING_CONFIRMATION
    paymentStatus := PaymentStatus.PENDING
    paymentId := none
    paymentAmount := none
    paymentCurrency := none
    createdAt := 0
    confirmedAt := none
    paymentUpdatedAt := none
    lastAccessedAt := none
    magicLinkExpiresAt := none
    accessCount := 0 }

/-- The fixture's token. -/
def tok0 : String := "AbCdEfGh1234"

/-- A store holding one non-expiring booking and no analytics rows. -/
def store0 : Store := { bookings := [baseBooking], analytics := [] }

/-- The fixture booking with an expiration date of `t = 1000` ms. -/
def expiredBooking : Booking := { baseBooking with magicLinkExpiresAt := some 1000 }

/-- A store holding one booking whose link expired at `t = 1000` ms. -/
def expiredStore : Store := { bookings := [expiredBooking], analytics := [] }

/-! ## Claims -/

/-- **C4.** The expiry predicate `isMagicLinkExpired` returns `false` for
every clock value when the expiration date is absent, and with an
expiration date `t` present it returns `true` iff `now > t`; at the
boundary `now = t` the link is not expired. -/
theorem isMagicLinkExpired_spec :
    (∀ now : Int, isMagicLinkExpired none now = false) ∧
    (∀ t now : Int, (isMagicLinkExpired (some t) now = true ↔ now > t) ∧
      isMagicLinkExpired (some t) t = false) := by
  refine ⟨fun now => rfl, fun t now => ⟨?_, ?_⟩⟩
  · simp [isMagicLinkExpired]
  · simp [isMagicLinkExpired]

/-- **C10.** The payment-update validator rejects an `amount` exactly when
one is supplied that is not a number or is strictly negative; a request
with a non-COMPLETED `paymentStatus`, `amount = 0` and a valid 3-letter
currency passes validation with no errors. -/
theorem validatePaymentStatusUpdate_amount_spec :
    (∀ b : PaymentBody,
      "amount must be a positive number" ∈ validatePaymentStatusUpdate b ↔
        (b.amount ≠ none ∧ ∀ n : Int, b.amount = some (JsVal.num n) → n < 0)) ∧
    validatePaymentStatusUpdate
      { paymentStatus := some (JsVal.str "PENDING"), paymentId := none,
        amount := some (JsVal.num 0), currency := some (JsVal.str "USD") } = [] := by
  constructor
  · intro b
    have hmem : "amount must be a positive number" ∈ validatePaymentStatusUpdate b ↔
        amountRejected b.amount = true := by
      by_cases h4 : amountRejected b.amount = true <;>
        simp [validatePaymentStatusUpdate, h4]
    rw [hmem]
    rcases hb : b.amount with _ | v
    · simp [amountRejected, hb]
    · rcases v with n | s | bb | _ <;> simp [amountRejected, hb]
  · decide

/-- Any string ending in `"m"` differs from `"Expired"`: both non-expired
branches of `formatTimeRemaining` end in `"m"`. -/
theorem append_m_ne_expired (s : String) : s ++ "m" ≠ "Expired" := by
  intro h
  have h2 : (s ++ "m").data = ("Expired" : String).data := by rw [h]
  rw [String.data_append] at h2
  have h3 := congrArg List.getLast? h2
  rw [List.getLast?_concat] at h3
  exact absurd h3 (by decide)

/-- **C7.** `formatTimeRemaining` returns `"No expiration"` when the
expiration date is absent, `"Expired"` exactly when the clamped remaining
time is zero, and otherwise an `"{h}h {m}m"` string (at least one full
hour left) or an `"{m}m"` string; applied at `now` to the expiration
freshly computed at `now` (TTL one hour) it never returns `"Expired"`. -/
theorem formatTimeRemaining_spec :
    (∀ now : Int, formatTimeRemaining none now = "No expiration") ∧
    (∀ t now : Int, formatTimeRemaining (some t) now = "Expired" ↔
      getTimeUntilExpiration (some t) now = some 0) ∧
    (∀ t now : Int, now < t →
      (3600000 ≤ t - now →
        formatTimeRemaining (some t) now =
          toString ((t - now) / 3600000) ++ "h " ++
            toString ((t - now) / 60000 % 60) ++ "m") ∧
      (t - now < 3600000 →
        formatTimeRemaining (some t) now = toString ((t - now) / 60000) ++ "m")) ∧
    (∀ now : Int, formatTimeRemaining (some (calculateMagicLinkExpiration now)) now ≠
      "Expired") := by
  refine ⟨fun now => rfl, fun t now => ?_, fun t now h => ⟨?_, ?_⟩, fun now => ?_⟩
  · by_cases h : max 0 (t - now) = 0
    · simp [formatTimeRemaining, getTimeUntilExpiration, h]
    · simp only [formatTimeRemaining, getTimeUntilExpiration, if_neg h]
      constructor
      · intro hc
        exfalso
        revert hc
        split
        · rw [show ∀ a b c : String, a ++ b ++ c ++ "m" = (a ++ b ++ c) ++ "m" from
            fun _ _ _ => rfl]
          exact append_m_ne_expired _
        · exact append_m_ne_expired _
      · intro hc
        exact absurd (Option.some_injective _ hc) h
  · intro h2
    have hmax : max 0 (t - now) = t - now := by omega
    have hne : ¬ max 0 (t - now) = 0 := by omega
    have hpos : (t - now) / (1000 * 60) / 60 > 0 := by omega
    simp only [formatTimeRemaining, hmax, if_neg (by omega : ¬ (t - now) = 0),
      if_pos hpos]
    have e1 : (t - now) / (1000 * 60) / 60 = (t - now) / 3600000 := by omega
    have e2 : (t - now) / (1000 * 60) % 60 = (t - now) / 60000 % 60 := by norm_num
    rw [e1, e2]
  · intro h2
    have hmax : max 0 (t - now) = t - now := by omega
    have hneg : ¬ (t - now) / (1000 * 60) / 60 > 0 := by omega
    simp only [formatTimeRemaining, hmax, if_neg (by omega : ¬ (t - now) = 0),
      if_neg hneg]
    norm_num
  · have h : calculateMagicLinkExpiration now - now = 3600000 := by
      unfold calculateMagicLinkExpiration; omega
    simp only [formatTimeRemaining, h]
    norm_num
    decide

/-- `find?` commutes with a map that never changes whether the predicate
holds: the shape of every `prisma.booking.update` in the routes. -/
theorem find?_map_comm {α : Type} (p : α → Bool) (g : α → α)
    (hg : ∀ x, p (g x) = p x) :
    ∀ l : List α, (l.map g).find? p = (l.find? p).map g := by
  intro l
  induction l with
  | nil => rfl
  | cons a t ih =>
    simp only [List.map_cons]
    by_cases h : p a = true
    · rw [List.find?_cons_of_pos _ (by rw [hg]; exact h), List.find?_cons_of_pos _ h]
      rfl
    · rw [List.find?_cons_of_neg _ (by rw [hg]; simpa using h),
        List.find?_cons_of_neg _ h, ih]

/-- **C3.** A token that resolves to no booking takes the not-found exit
on every path — redirect, preview, magic-API and track — and leaves the
store (bookings and analytics rows alike) unchanged. -/
theorem unknownToken_notFound_frame :
    ∀ (s : Store) (tok : String) (now : Int) (ua ip ev bua bip : Option String)
      (base proto host : String),
      findByToken s tok = none →
        redirectRoute s tok now ua ip base =
          (RedirectResult.errorNotFound (base ++ "/booking/error?reason=not_found"), s) ∧
        previewRoute s tok base proto host = (PreviewResult.notFound, s) ∧
        magicApiRoute s tok now = (MagicApiResult.notFound, s) ∧
        trackRoute s tok ev bua bip ua ip now = (TrackResult.notFound, s) := by
  intro s tok now ua ip ev bua bip base proto host h
  refine ⟨?_, ?_, ?_, ?_⟩ <;>
    simp [redirectRoute, previewRoute, magicApiRoute, trackRoute, h]

/-- Witness for C3: an unknown token against the one-booking store. -/
theorem unknownToken_notFound_frame_witness :
    findByToken store0 "ZzZzZzZzZzZz" = none ∧
    magicApiRoute store0 "ZzZzZzZzZzZz" 0 = (MagicApiResult.notFound, store0) :=
  ⟨by decide,
    (unknownToken_notFound_frame store0 "ZzZzZzZzZzZz" 0 none none none none none
      "B" "https" "H" (by decide)).2.2.1⟩

/-- **C6.** `confirm` sets the status to CONFIRMED and stamps
`confirmedAt` with the request time whatever the current status is (so a
re-confirm succeeds and moves `confirmedAt` forward), and answers
not-found when no booking has the id. -/
theorem confirmRoute_spec :
    ∀ (s : Store) (uuid : String) (now : Int),
      (findById s uuid = none → confirmRoute s uuid now = (ConfirmResult.notFound, s)) ∧
      (∀ b, findById s uuid = some b →
        (confirmRoute s uuid now).1 =
          ConfirmResult.ok
            { b with status := BookingStatus.CONFIRMED, confirmedAt := some now } ∧
        findById (confirmRoute s uuid now).2 uuid =
          some { b with status := BookingStatus.CONFIRMED, confirmedAt := some now }) := by
  intro s uuid now
  constructor
  · intro h
    have h' : s.bookings.find? (fun x => x.id == uuid) = none := h
    simp [confirmRoute, findById, h']
  · intro b h
    have h' : s.bookings.find? (fun x => x.id == uuid) = some b := h
    have hb : (b.id == uuid) = true :=
      List.find?_some (p := fun x : Booking => x.id == uuid) h'
    constructor
    · simp [confirmRoute, findById, confirmUpd, h']
    · simp only [confirmRoute, findById, updateWhere, h']
      rw [find?_map_comm (fun x : Booking => x.id == uuid) _
        (fun x => by by_cases hx : (x.id == uuid) = true <;> simp [hx, confirmUpd]), h']
      rw [Option.map_some']
      rw [if_pos hb]
      rfl

/-- The fixture booking, already confirmed at time 100. -/
def confirmedBooking : Booking :=
  { baseBooking with status := BookingStatus.CONFIRMED, confirmedAt := some 100 }

/-- A store holding only the already-confirmed fixture booking. -/
def confirmedStore : Store := { bookings := [confirmedBooking], analytics := [] }

/-- Witness for C6: re-confirming an already-CONFIRMED booking at time 999
succeeds and moves `confirmedAt` from 100 to 999. -/
theorem confirmRoute_spec_witness :
    findById confirmedStore "uuid-1" = some confirmedBooking ∧
    findById (confirmRoute confirmedStore "uuid-1" 999).2 "uuid-1" =
      some { confirmedBooking with status := BookingStatus.CONFIRMED, confirmedAt := some 999 } :=
  ⟨by decide,
    ((confirmRoute_spec confirmedStore "uuid-1" 999).2 confirmedBooking (by decide)).2⟩

/-- **C9.** For a known token, `POST /appt/:magicLinkId/track` appends
exactly one analytics row — whose `eventType` falls back to
`"interaction"` when the body carries no event — and leaves every booking
row of the store untouched. -/
theorem trackRoute_spec :
    ∀ (s : Store) (tok : String) (ev bua bip hua rip : Option String)
      (now : Int) (b : Booking),
      findByToken s tok = some b →
        (trackRoute s tok ev bua bip hua rip now).1 = TrackResult.ok ∧
        (trackRoute s tok ev bua bip hua rip now).2.bookings = s.bookings ∧
        (trackRoute s tok ev bua bip hua rip now).2.analytics =
          s.analytics ++
            [{ bookingId := b.id, eventType := jsOrStr ev "interaction",
               userAgent := jsOrNullable bua hua, ipAddress := jsOrNullable bip rip,
               timestamp := now }] ∧
        (ev = none → jsOrStr ev "interaction" = "interaction") := by
  intro s tok ev bua bip hua rip now b h
  refine ⟨?_, ?_, ?_, fun he => by simp [he, jsOrStr, truthyStr]⟩ <;>
    simp [trackRoute, h]

/-- Witness for C9: tracking with an empty body against the one-booking
store appends one `"interaction"` row and keeps the booking list. -/
theorem trackRoute_spec_witness :
    findByToken store0 tok0 = some baseBooking ∧
    (trackRoute store0 tok0 none none none none none 77).2.bookings = store0.bookings ∧
    (trackRoute store0 tok0 none none none none none 77).2.analytics =
      store0.analytics ++
        [{ bookingId := baseBooking.id, eventType := jsOrStr none "interaction",
           userAgent := jsOrNullable none none, ipAddress := jsOrNullable none none,
           timestamp := 77 }] :=
  ⟨by decide,
    (trackRoute_spec store0 tok0 none none none none none 77 baseBooking (by decide)).2.1,
    (trackRoute_spec store0 tok0 none none none none none 77 baseBooking (by decide)).2.2.1⟩

/-- **C8.** Whenever the analytics listing succeeds, the returned events
are sorted most-recent-first, number at most 50, and are exactly rows of
the store belonging to the booking the token resolves to; the route
performs no store write (a restartable pure query). -/
theorem analyticsRoute_spec :
    ∀ (s : Store) (tok bid : String) (cnt : Nat) (lat : Option Int)
      (evs : List AnalyticsEvent),
      (analyticsRoute s tok).1 = AnalyticsResult.ok bid cnt lat evs →
        List.Sorted tsGE evs ∧ evs.length ≤ 50 ∧
        (∃ b, findByToken s tok = some b ∧ bid = b.bookingId ∧ cnt = b.accessCount ∧
          ∀ e ∈ evs, e ∈ s.analytics ∧ e.bookingId = b.id) ∧
        (analyticsRoute s tok).2 = s := by
  intro s tok bid cnt lat evs h
  cases hf : findByToken s tok with
  | none => simp [analyticsRoute, hf] at h
  | some b =>
    have hr : analyticsRoute s tok =
        (AnalyticsResult.ok b.bookingId b.accessCount b.lastAccessedAt
          (listAnalyticsDesc s b.id), s) := by
      simp [analyticsRoute, hf]
    rw [hr] at h
    simp only [AnalyticsResult.ok.injEq] at h
    obtain ⟨h1, h2, h3, h4⟩ := h
    subst h1 h2 h3 h4
    refine ⟨?_, ?_, ⟨b, rfl, rfl, rfl, ?_⟩, by rw [hr]⟩
    · exact List.Pairwise.sublist (List.take_sublist _ _)
        (List.sorted_insertionSort tsGE _)
    · simp only [listAnalyticsDesc, List.length_take]
      exact Nat.min_le_left _ _
    · intro e he
      have he1 : e ∈ List.insertionSort tsGE
          (s.analytics.filter (fun x => x.bookingId == b.id)) :=
        List.mem_of_mem_take he
      have he2 : e ∈ s.analytics.filter (fun x => x.bookingId == b.id) :=
        (List.mem_insertionSort tsGE).mp he1
      have he3 := List.mem_filter.mp he2
      exact ⟨he3.1, by simpa using he3.2⟩

/-- An analytics row of the fixture booking at time 10. -/
def ev10 : AnalyticsEvent :=
  { bookingId := "uuid-1", eventType := "magic_link_click",
    userAgent := none, ipAddress := none, timestamp := 10 }

/-- An analytics row of the fixture booking at time 20. -/
def ev20 : AnalyticsEvent :=
  { bookingId := "uuid-1", eventType := "interaction",
    userAgent := none, ipAddress := none, timestamp := 20 }

/-- The one-booking store with two analytics rows stored oldest-first. -/
def analyticsStore : Store := { bookings := [baseBooking], analytics := [ev10, ev20] }

/-- Witness for C8: the two stored rows come back newest-first and within
the 50-row bound. -/
theorem analyticsRoute_spec_witness :
    (analyticsRoute analyticsStore tok0).1 =
      AnalyticsResult.ok "booking_1" 0 none [ev20, ev10] ∧
    List.Sorted tsGE [ev20, ev10] ∧
    ([ev20, ev10] : List AnalyticsEvent).length ≤ 50 :=
  ⟨by decide,
    (analyticsRoute_spec analyticsStore tok0 "booking_1" 0 none [ev20, ev10]
      (by decide)).1,
    (analyticsRoute_spec analyticsStore tok0 "booking_1" 0 none [ev20, ev10]
      (by decide)).2.1⟩

/-- The two per-booking quantities C5 is about: the access counter may only
grow, and the expiration date may not change. -/
def preservesCore (b b' : Booking) : Prop :=
  b.accessCount ≤ b'.accessCount ∧ b'.magicLinkExpiresAt = b.magicLinkExpiresAt

/-- `preservesCore` relates every list to itself. -/
theorem forall₂_preservesCore_refl (l : List Booking) :
    List.Forall₂ preservesCore l l :=
  List.forall₂_same.mpr (fun _ _ => ⟨le_refl _, rfl⟩)

/-- A conditional map whose function satisfies `preservesCore` relates the
list to its image. -/
theorem forall₂_preservesCore_map (p : Booking → Bool) (f : Booking → Booking)
    (hf : ∀ x, preservesCore x (f x)) (l : List Booking) :
    List.Forall₂ preservesCore l (l.map (fun x => if p x then f x else x)) := by
  induction l with
  | nil => exact List.Forall₂.nil
  | cons a t ih =>
    simp only [List.map_cons]
    by_cases h : p a = true
    · rw [if_pos h]; exact List.Forall₂.cons (hf a) ih
    · rw [if_neg h]; exact List.Forall₂.cons ⟨le_refl _, rfl⟩ ih

/-- **C5.** Across every operation of the core, each booking's
`accessCount` never decreases and its `magicLinkExpiresAt`, set at
creation, is never modified (confirm, payment update and the access paths
included). -/
theorem accessCount_mono_expiry_immutable :
    ∀ (s : Store) (op : Op),
      List.Forall₂ preservesCore s.bookings (applyOp s op).bookings := by
  intro s op
  cases op with
  | confirmOp uuid now =>
    cases h : findById s uuid with
    | none =>
      simp only [applyOp, confirmRoute, h]
      exact forall₂_preservesCore_refl _
    | some b =>
      simp only [applyOp, confirmRoute, h, updateWhere]
      exact forall₂_preservesCore_map _ (confirmUpd now) (fun x => ⟨le_refl _, rfl⟩) _
  | paymentOp uuid ps pid amount cur now =>
    cases h : findById s uuid with
    | none =>
      simp only [applyOp, paymentRoute, h]
      exact forall₂_preservesCore_refl _
    | some b =>
      simp only [applyOp, paymentRoute, h, updateWhere]
      exact forall₂_preservesCore_map _ (payUpd ps pid amount cur now)
        (fun x => ⟨le_refl _, rfl⟩) _
  | redirectOp tok now ua ip base =>
    cases h : findByToken s tok with
    | none =>
      simp only [applyOp, redirectRoute, h]
      exact forall₂_preservesCore_refl _
    | some b =>
      simp only [applyOp, redirectRoute, h, updateWhere]
      exact forall₂_preservesCore_map _ (incAccess now)
        (fun x => ⟨Nat.le_succ _, rfl⟩) _
  | previewOp tok base proto host =>
    cases h : findByToken s tok with
    | none =>
      simp only [applyOp, previewRoute, h]
      exact forall₂_preservesCore_refl _
    | some b =>
      simp only [applyOp, previewRoute, h]
      exact forall₂_preservesCore_refl _
  | magicOp tok now =>
    cases h : findByToken s tok with
    | none =>
      simp only [applyOp, magicApiRoute, h]
      exact forall₂_preservesCore_refl _
    | some b =>
      by_cases hexp : isMagicLinkExpired b.magicLinkExpiresAt now = true
      · simp only [applyOp, magicApiRoute, h, if_pos hexp]
        exact forall₂_preservesCore_refl _
      · simp only [applyOp, magicApiRoute, h, if_neg hexp, updateWhere]
        exact forall₂_preservesCore_map _ (incAccess now)
          (fun x => ⟨Nat.le_succ _, rfl⟩) _
  | trackOp tok ev ua ip hua rip now =>
    cases h : findByToken s tok with
    | none =>
      simp only [applyOp, trackRoute, h]
      exact forall₂_preservesCore_refl _
    | some b =>
      simp only [applyOp, trackRoute, h]
      exact forall₂_preservesCore_refl _
  | analyticsOp tok =>
    cases h : findByToken s tok with
    | none =>
      simp only [applyOp, analyticsRoute, h]
      exact forall₂_preservesCore_refl _
    | some b =>
      simp only [applyOp, analyticsRoute, h]
      exact forall₂_preservesCore_refl _

/-- Witness for C7: 1 hour 2 minutes of remaining time formats as the
hour/minute string, and the fresh 1-hour expiration at `now = 0` is not
"Expired". -/
theorem formatTimeRemaining_spec_witness :
    (0 : Int) < 3720000 ∧ (3600000 : Int) ≤ 3720000 - 0 ∧
    formatTimeRemaining (some 3720000) 0 =
      toString ((3720000 - 0 : Int) / 3600000) ++ "h " ++
        toString ((3720000 - 0 : Int) / 60000 % 60) ++ "m" ∧
    formatTimeRemaining (some (calculateMagicLinkExpiration 0)) 0 ≠ "Expired" :=
  ⟨by decide, by decide,
    (formatTimeRemaining_spec.2.2.1 3720000 0 (by decide)).1 (by decide),
    formatTimeRemaining_spec.2.2.2 0⟩

/-- Token lookup after a conditional update that never changes tokens is
the lookup before, with the update applied to the hit. -/
theorem findByToken_updateWhere (s : Store) (tok : String) (q : Booking → Bool)
    (f : Booking → Booking) (hf : ∀ x, (f x).magicLinkId = x.magicLinkId) :
    findByToken (updateWhere s q f) tok =
      (findByToken s tok).map (fun x => if q x then f x else x) := by
  unfold findByToken updateWhere
  exact find?_map_comm _ _
    (fun x => by by_cases hx : q x = true <;> simp [hx, hf x]) _

/-- One successful redirect-path resolution turns the booking the token
resolves to into its access-incremented form. -/
theorem findByToken_after_redirect (s : Store) (tok : String) (now : Int)
    (ua ip : Option String) (base : String) (b : Booking)
    (h : findByToken s tok = some b) :
    findByToken (redirectRoute s tok now ua ip base).2 tok =
      some (incAccess now b) := by
  have h' : s.bookings.find? (fun x => x.magicLinkId == tok) = some b := h
  have hb : (b.magicLinkId == tok) = true :=
    List.find?_some (p := fun x : Booking => x.magicLinkId == tok) h'
  simp only [redirectRoute, findByToken, h', updateWhere]
  rw [find?_map_comm _ _
    (fun x => by by_cases hx : (x.magicLinkId == tok) = true <;> simp [hx, incAccess]),
    h', Option.map_some', if_pos hb]

/-- **C2 (amended).** For a known token: the redirect path increments
`accessCount` by exactly 1, stamps `lastAccessedAt`, appends one
`magic_link_click` analytics row and answers the redirect URL; the
magic-API path (when not expired) answers the booking payload and
increments the same way but appends no analytics row; the preview path
answers the preview payload and changes nothing; and `N` redirect-path
resolutions grow `accessCount` by exactly `N`. -/
theorem resolution_access_effects :
    ∀ (s : Store) (tok : String) (now : Int) (ua ip : Option String)
      (base proto host : String) (b : Booking),
      findByToken s tok = some b →
        ((redirectRoute s tok now ua ip base).1 =
            RedirectResult.redirect (base ++ "/booking/" ++ b.bookingId ++
              "?status=" ++ b.status.toName ++ "&payment_status=" ++
              b.paymentStatus.toName ++ "&source=magic_link") ∧
          findByToken (redirectRoute s tok now ua ip base).2 tok =
            some (incAccess now b) ∧
          (redirectRoute s tok now ua ip base).2.analytics =
            s.analytics ++
              [{ bookingId := b.id, eventType := "magic_link_click",
                 userAgent := jsOrNullable ua none, ipAddress := jsOrNullable ip none,
                 timestamp := now }]) ∧
        (isMagicLinkExpired b.magicLinkExpiresAt now = false →
          (magicApiRoute s tok now).1 = MagicApiResult.ok b ∧
          findByToken (magicApiRoute s tok now).2 tok = some (incAccess now b) ∧
          (magicApiRoute s tok now).2.analytics = s.analytics) ∧
        ((previewRoute s tok base proto host).1 =
            PreviewResult.ok b (base ++ "/booking/" ++ b.bookingId ++
              "?status=" ++ b.status.toName ++ "&payment_status=" ++
              b.paymentStatus.toName ++ "&source=magic_link")
              (proto ++ "://" ++ host ++ "/appt/" ++ tok) ∧
          (previewRoute s tok base proto host).2 = s) ∧
        (∀ N : Nat, ∃ bN : Booking,
          findByToken (iterateRedirect s tok now ua ip base N) tok = some bN ∧
          bN.accessCount = b.accessCount + N) := by
  intro s tok now ua ip base proto host b h
  refine ⟨⟨?_, findByToken_after_redirect s tok now ua ip base b h, ?_⟩,
    fun hexp => ⟨?_, ?_, ?_⟩, ⟨?_, ?_⟩, ?_⟩
  · simp [redirectRoute, h]
  · simp [redirectRoute, h, updateWhere]
  · simp [magicApiRoute, h, hexp]
  · have hs : (magicApiRoute s tok now).2 =
        updateWhere s (fun x => x.id == b.id) (incAccess now) := by
      simp [magicApiRoute, h, hexp]
    rw [hs, findByToken_updateWhere s tok (fun x => x.id == b.id) (incAccess now)
      (fun x => rfl), h, Option.map_some']
    simp
  · simp [magicApiRoute, h, hexp, updateWhere]
  · simp [previewRoute, h]
  · simp [previewRoute, h]
  · intro N
    induction N with
    | zero => exact ⟨b, by simpa using h, by omega⟩
    | succ n ih =>
      obtain ⟨bN, hN, hc⟩ := ih
      refine ⟨incAccess now bN,
        findByToken_after_redirect _ _ _ _ _ _ _ hN, ?_⟩
      simp [incAccess]
      omega

/-- Witness for C2: one redirect resolution of the fixture token moves its
`accessCount` from 0 to 1 and appends the click row. -/
theorem resolution_access_effects_witness :
    findByToken store0 tok0 = some baseBooking ∧
    findByToken (redirectRoute store0 tok0 5 none none "B").2 tok0 =
      some (incAccess 5 baseBooking) ∧
    (redirectRoute store0 tok0 5 none none "B").2.analytics =
      store0.analytics ++
        [{ bookingId := baseBooking.id, eventType := "magic_link_click",
           userAgent := jsOrNullable none none, ipAddress := jsOrNullable none none,
           timestamp := 5 }] :=
  ⟨by decide,
    (resolution_access_effects store0 tok0 5 none none "B" "https" "H" baseBooking
      (by decide)).1.2.1,
    (resolution_access_effects store0 tok0 5 none none "B" "https" "H" baseBooking
      (by decide)).1.2.2⟩

/-- Counterexample to C2 as stated: the preview path succeeds — it
produces the full preview payload for the known, non-expired fixture
token — yet the store is left identical: the booking's `accessCount`
stays 0 instead of becoming 1, `lastAccessedAt` stays unset, and no
analytics row is written. -/
theorem preview_success_without_increment :
    (previewRoute store0 tok0 "B" "https" "H").1 =
      PreviewResult.ok baseBooking
        "B/booking/booking_1?status=PENDING_CONFIRMATION&payment_status=PENDING&source=magic_link"
        "https://H/appt/AbCdEfGh1234" ∧
    (previewRoute store0 tok0 "B" "https" "H").2 = store0 ∧
    baseBooking.accessCount = 0 ∧
    baseBooking.lastAccessedAt = none ∧
    store0.analytics = [] := by
  refine ⟨by decide, by decide, rfl, rfl, rfl⟩

/-- **C1 (code bug).** At a token expired by one second (expiry 1000 ms,
resolution at 2000 ms) the magic-API path does answer the distinct Gone
exit — never NotFound — but the preview path, which the claim and the
repository's own `MAGIC_LINK_EXPIRATION.md` say must answer 410 Gone,
performs no expiration check at all and answers the full 200 preview
payload (its result type has no Gone exit to answer). -/
theorem expired_preview_not_gone :
    isMagicLinkExpired expiredBooking.magicLinkExpiresAt 2000 = true ∧
    magicApiRoute expiredStore tok0 2000 = (MagicApiResult.gone, expiredStore) ∧
    (previewRoute expiredStore tok0 "B" "https" "H").1 =
      PreviewResult.ok expiredBooking
        "B/booking/booking_1?status=PENDING_CONFIRMATION&payment_status=PENDING&source=magic_link"
        "https://H/appt/AbCdEfGh1234" := by
  refine ⟨by decide, by decide, by decide⟩

/-- Witness for C4: a link with no expiration date never expires, and a
link checked exactly at its expiration instant is not yet expired. -/
theorem isMagicLinkExpired_spec_witness :
    isMagicLinkExpired none 123 = false ∧ isMagicLinkExpired (some 5) 5 = false :=
  ⟨isMagicLinkExpired_spec.1 123, (isMagicLinkExpired_spec.2 5 5).2⟩

/-- Witness for C5: one magic-API access of the fixture store relates old
and new booking lists pointwise. -/
theorem accessCount_mono_expiry_immutable_witness :
    List.Forall₂ preservesCore store0.bookings
      (applyOp store0 (Op.magicOp tok0 3)).bookings :=
  accessCount_mono_expiry_immutable store0 (Op.magicOp tok0 3)

/-- A payment body carrying a strictly negative amount. -/
def negAmountBody : PaymentBody :=
  { paymentStatus := some (JsVal.str "PENDING"), paymentId := none,
    amount := some (JsVal.num (-5)), currency := some (JsVal.str "USD") }

/-- Witness for C10: instantiating the amount characterisation at a
negative-amount body. -/
theorem validatePaymentStatusUpdate_amount_spec_witness :
    "amount must be a positive number" ∈ validatePaymentStatusUpdate negAmountBody ↔
      (negAmountBody.amount ≠ none ∧
        ∀ n : Int, negAmountBody.amount = some (JsVal.num n) → n < 0) :=
  validatePaymentStatusUpdate_amount_spec.1 negAmountBody

end TextbookBackend
